import Mathlib

set_option maxRecDepth 4000
set_option linter.unusedVariables false

/-!
Shallow embedding of the VideoSuiteYT backend (src/backend/src) and of the
ResourceBudget component described by its specification, together with
theorems settling the frozen claims about the system.

The Python modules embedded here are audio_pipeline.py, ollama_client.py,
video_engine.py and main.py.  Pure computations become Lean functions;
calls to external processes (ffmpeg, the Ollama HTTP backend, the json
library, the filesystem) are modelled by explicit parameters carrying the
external outcome (return codes, captured output, the set of existing
files, the parse oracle).  Python floats that only undergo exact
arithmetic in the embedded code are modelled by rationals.
-/

/-! ### Small Python-semantics helpers -/

/-- Left list is an initial run of the right list. -/
def leadEq : List Char → List Char → Bool
  | [], _ => true
  | _ :: _, [] => false
  | a :: as, b :: bs => a == b && leadEq as bs

/-- Substring occurrence test on character lists. -/
def hasRun (needle : List Char) : List Char → Bool
  | [] => leadEq needle []
  | c :: t => leadEq needle (c :: t) || hasRun needle t

/-- Python `needle in hay` on strings. -/
def pyIn (needle hay : String) : Bool :=
  hasRun needle.toList hay.toList

/-- Fuel-driven worker for `pyReplace`; the fuel is the length of the
scanned list, which suffices because every step consumes at least one
character when the pattern is nonempty. -/
def replaceGo (patt repl : List Char) : Nat → List Char → List Char
  | _, [] => []
  | 0, s => s
  | fuel + 1, c :: t =>
      if leadEq patt (c :: t) then
        repl ++ replaceGo patt repl fuel ((c :: t).drop patt.length)
      else
        c :: replaceGo patt repl fuel t

/-- Python `s.replace(patt, repl)`: leftmost, non-overlapping, all
occurrences. -/
def pyReplace (s patt repl : String) : String :=
  String.mk (replaceGo patt.toList repl.toList s.toList.length s.toList)

/-- Counts maximal nonblank runs; worker for `pyWordCount`. -/
def wordsAux : List Char → Bool → Nat
  | [], _ => 0
  | c :: t, inWord =>
      if c.isWhitespace then wordsAux t false
      else if inWord then wordsAux t true
      else 1 + wordsAux t true

/-- Python `len(s.split())`: number of whitespace-separated words. -/
def pyWordCount (s : String) : Nat :=
  wordsAux s.toList false

/-- Python `int(q)` for a nonnegative rational (truncation). -/
def pyInt (q : Rat) : Nat :=
  q.floor.toNat

/-! ### audio_pipeline.py — data model -/

/-- VoiceSettings from main.py (the request model consumed by
audio_pipeline). -/
structure VoiceSettings where
  voice_type : String
  voice_id : String
  reference_audio_path : Option String
  speed : Rat
  pitch : Rat
deriving DecidableEq

/-- AudioRequest from main.py. -/
structure AudioRequest where
  text : String
  voice_settings : VoiceSettings
deriving DecidableEq

/-- A WAV file as written through soundfile: a sample rate and the sample
values. -/
structure AudioFile where
  sampleRate : Nat
  samples : List Rat
deriving DecidableEq

/-- The duration computed in `_generate_preset_voice` and
`_generate_custom_voice`: `max(1, len(text.split()) / 150 * settings.speed)`. -/
def placeholderDuration (wordCount : Nat) (speed : Rat) : Rat :=
  max 1 ((wordCount : Rat) / 150 * speed)

/-- The placeholder waveform both generators write:
`np.zeros(int(sample_rate * duration))` at 22050 Hz. -/
def placeholderAudio (text : String) (speed : Rat) : AudioFile :=
  { sampleRate := 22050
    samples := List.replicate (pyInt ((22050 : Rat) * placeholderDuration (pyWordCount text) speed)) 0 }

/-- `_generate_preset_voice`: writes the silent placeholder and returns the
output path. -/
def generatePresetVoice (text outputPath : String) (settings : VoiceSettings) :
    String × AudioFile :=
  (outputPath, placeholderAudio text settings.speed)

/-- `_generate_custom_voice`: raises `ValueError` when the reference clip is
falsy or does not exist (`fsExists` is the set of existing files), otherwise
writes the silent placeholder. -/
def generateCustomVoice (fsExists : List String) (text outputPath : String)
    (settings : VoiceSettings) : Except String (String × AudioFile) :=
  match settings.reference_audio_path with
  | none => .error "Custom voice requires reference audio file (10-60s)"
  | some p =>
      if p = "" ∨ p ∉ fsExists then
        .error "Custom voice requires reference audio file (10-60s)"
      else
        .ok (outputPath, placeholderAudio text settings.speed)

/-! ### audio_pipeline.py — `_normalize_loudness` -/

/-- Outcome of the first `subprocess.run` inside `_normalize_loudness`:
either it returned (with a return code and captured stderr) or the try-body
raised. -/
inductive NormOutcome where
  | runs (returncode : Int) (stderr : String)
  | raises
deriving DecidableEq

/-- The loudnorm measurement filter string built in `_normalize_loudness`. -/
def loudnormFilter (targetLufs : Int) : String :=
  "loudnorm=I=" ++ toString targetLufs ++ ":TP=-1.5:LRA=11:print_format=json"

/-- `output_path = audio_path.replace(".wav", "_normalized.wav")`. -/
def normalizedPath (audioPath : String) : String :=
  pyReplace audioPath ".wav" "_normalized.wav"

/-- The first ffmpeg command of `_normalize_loudness` (note the two `-af`
options: ffmpeg keeps only the last one). -/
def loudnormCmd (audioPath : String) (targetLufs : Int) : List String :=
  ["ffmpeg", "-y", "-i", audioPath,
   "-af", loudnormFilter targetLufs,
   "-af", "volume=1.0",
   normalizedPath audioPath]

/-- The second-pass command built when the measurement output contains
`input_i`; the measured output is available but the command applies the
constant `volume=1.0` instead. -/
def secondPassCmd (loudnormOutput : String) (audioPath : String) : List String :=
  ["ffmpeg", "-y", "-i", audioPath, "-af", "volume=1.0", normalizedPath audioPath]

/-- The fallback command run when the first pass returns a nonzero code. -/
def fallbackCmd (audioPath : String) : List String :=
  ["ffmpeg", "-y", "-i", audioPath, "-af", "volume=1.0", normalizedPath audioPath]

/-- All ffmpeg invocations `_normalize_loudness` executes, as a function of
the first subprocess outcome. -/
def normalizeCmds (out : NormOutcome) (audioPath : String) (targetLufs : Int) :
    List (List String) :=
  match out with
  | .raises => []
  | .runs rc stderr =>
      if rc = 0 then
        loudnormCmd audioPath targetLufs ::
          (if pyIn "input_i" stderr then [secondPassCmd stderr audioPath] else [])
      else
        [loudnormCmd audioPath targetLufs, fallbackCmd audioPath]

/-- The path `_normalize_loudness` returns: the normalized path on every
non-raising branch, the ORIGINAL path when the try-body raises (the
exception is swallowed). -/
def normalizeLoudness (out : NormOutcome) (audioPath : String)
    (targetLufs : Int) : String :=
  match out with
  | .raises => audioPath
  | .runs _ _ => normalizedPath audioPath

/-- `generate_voiceover`: dispatches on `voice_type`, then normalizes.
`hashVal` stands for the runtime value of `abs(hash(request.text))`. -/
def generateVoiceover (fsExists : List String) (hashVal : Nat)
    (norm : NormOutcome) (req : AudioRequest) :
    Except String (String × AudioFile) :=
  let outputPath := "assets/audio/voiceover_" ++ toString (hashVal % 10000) ++ ".wav"
  let gen : Except String (String × AudioFile) :=
    if req.voice_settings.voice_type = "preset" then
      .ok (generatePresetVoice req.text outputPath req.voice_settings)
    else
      generateCustomVoice fsExists req.text outputPath req.voice_settings
  match gen with
  | .error e => .error e
  | .ok (p, audio) => .ok (normalizeLoudness norm p (-16), audio)

/-- ffmpeg keeps the last `-af` option; this extracts the value following
the last `-af` in an argument list, scanning from the right. -/
def lastAfRev : List String → Option String
  | v :: x :: rest => if x = "-af" then some v else lastAfRev (x :: rest)
  | _ => none

/-- The effective audio filter of an ffmpeg argument list. -/
def lastAf (args : List String) : Option String :=
  lastAfRev args.reverse

/-! ### ollama_client.py / main.py — word counts and durations -/

/-- `target_words = request.target_duration_seconds * 150 / 60` from
`generate_script`. -/
def targetWords (durationSeconds : Nat) : Rat :=
  (durationSeconds : Rat) * 150 / 60

/-- The duration main.py reports for generated audio:
`len(request.text.split()) / 150 * request.voice_settings.speed`. -/
def reportedDurationSeconds (wordCount : Nat) (speed : Rat) : Rat :=
  (wordCount : Rat) / 150 * speed

/-- A script text hitting the targeted word count for a 45-second job:
112 whitespace-separated words. -/
def t112 : String :=
  String.intercalate " " (List.replicate 112 "habit")

/-! ### Helper lemmas for rational evaluation -/

theorem rat_floor_eq_intFloor (q : ℚ) : q.floor = ⌊q⌋ :=
  (Rat.floor_def' q).trans Rat.floor_def.symm

theorem pyInt_eq_ofNat (q : ℚ) (n : ℕ) (h1 : (n : ℚ) ≤ q) (h2 : q < n + 1) :
    pyInt q = n := by
  unfold pyInt
  rw [rat_floor_eq_intFloor]
  have hq : ⌊q⌋ = (n : ℤ) := by
    rw [Int.floor_eq_iff]
    exact ⟨by exact_mod_cast h1, by push_cast; exact h2⟩
  rw [hq]
  simp

theorem placeholderDuration_eq_one (w : ℕ) (hw : w ≤ 150) :
    placeholderDuration w 1 = 1 := by
  unfold placeholderDuration
  rw [mul_one]
  apply max_eq_left
  rw [div_le_one (by norm_num : (0 : ℚ) < 150)]
  exact_mod_cast hw

theorem generateCustomVoice_err (fsExists : List String) (text outputPath : String)
    (settings : VoiceSettings)
    (href : match settings.reference_audio_path with
            | none => True
            | some p => p = "" ∨ p ∉ fsExists) :
    generateCustomVoice fsExists text outputPath settings =
      .error "Custom voice requires reference audio file (10-60s)" := by
  unfold generateCustomVoice
  cases h : settings.reference_audio_path with
  | none => rfl
  | some p =>
      rw [h] at href
      exact if_pos href

/-! ### Claim theorems: audio pipeline -/

/-- Claim C1 (code-bug evidence): for a preset voiceover request whose
loudness-normalization step raises an exception, `generate_voiceover`
still reports success — it returns the un-normalized path of the silent
placeholder file (22050 samples, all zero) instead of propagating the
failure.  The real TTS computation is likewise replaced by all-zero
placeholder output under a success result. -/
theorem c1_silent_placeholder_success :
    generateVoiceover [] 7 NormOutcome.raises
        ⟨"hello world", ⟨"preset", "default", none, 1, 1⟩⟩ =
      Except.ok ("assets/audio/voiceover_7.wav", placeholderAudio "hello world" 1) ∧
    (placeholderAudio "hello world" 1).sampleRate = 22050 ∧
    (placeholderAudio "hello world" 1).samples.length = 22050 ∧
    ∀ x ∈ (placeholderAudio "hello world" 1).samples, x = 0 := by
  refine ⟨rfl, rfl, ?_, fun x hx => List.eq_of_mem_replicate hx⟩
  show (List.replicate (pyInt ((22050 : Rat) *
      placeholderDuration (pyWordCount "hello world") 1)) (0 : Rat)).length = 22050
  rw [List.length_replicate]
  have hw : pyWordCount "hello world" = 2 := by decide
  rw [hw, placeholderDuration_eq_one 2 (by norm_num), mul_one]
  exact pyInt_eq_ofNat _ 22050 (by norm_num) (by norm_num)

/-- Claim C2: every ffmpeg invocation `_normalize_loudness` executes
carries `volume=1.0` as its effective (last) `-af` audio filter, for every
audio path, target LUFS and subprocess outcome; and the second-pass
command is the same argument vector whatever the measured loudnorm output
was — the measured gain is never applied. -/
theorem c2_normalize_applies_noop_gain_only (out : NormOutcome)
    (audioPath : String) (targetLufs : Int) :
    (∀ c ∈ normalizeCmds out audioPath targetLufs,
        lastAf c = some "volume=1.0") ∧
    (∀ s1 s2 : String, secondPassCmd s1 audioPath = secondPassCmd s2 audioPath) := by
  refine ⟨?_, fun s1 s2 => rfl⟩
  intro c hc
  cases out with
  | raises => simp [normalizeCmds] at hc
  | runs rc stderr =>
      replace hc : c ∈ (if rc = 0 then
          loudnormCmd audioPath targetLufs ::
            (if pyIn "input_i" stderr = true then [secondPassCmd stderr audioPath] else [])
        else [loudnormCmd audioPath targetLufs, fallbackCmd audioPath]) := hc
      by_cases h : rc = 0
      · rw [if_pos h] at hc
        rcases List.mem_cons.mp hc with h1 | h1
        · subst h1; rfl
        · by_cases h2 : pyIn "input_i" stderr = true
          · rw [if_pos h2] at h1
            have h3 := List.mem_singleton.mp h1
            subst h3; rfl
          · rw [if_neg h2] at h1
            simp at h1
      · rw [if_neg h] at hc
        rcases List.mem_cons.mp hc with h1 | h1
        · subst h1; rfl
        · have h3 := List.mem_singleton.mp h1
          subst h3; rfl

/-- Witness for C2 at a concrete invocation. -/
theorem c2_normalize_applies_noop_gain_only_witness :
    lastAf (loudnormCmd "voice.wav" (-16)) = some "volume=1.0" ∧
    secondPassCmd "measured-output" "voice.wav" = secondPassCmd "" "voice.wav" := by
  constructor
  · exact (c2_normalize_applies_noop_gain_only (NormOutcome.runs 0 "") "voice.wav"
      (-16)).1 (loudnormCmd "voice.wav" (-16)) (by decide)
  · exact (c2_normalize_applies_noop_gain_only (NormOutcome.runs 0 "") "voice.wav"
      (-16)).2 "measured-output" ""

/-- Claim C3 counterexample: a cloned-voice request whose reference clip
does not exist makes the voice stage fail with a ValueError — it does not
fall back to a preset voice, and no audio artifact is returned. -/
theorem c3_counterexample :
    generateVoiceover [] 3 (NormOutcome.runs 0 "")
        ⟨"hello", ⟨"custom", "voice1", some "missing.wav", 1, 1⟩⟩ =
      .error "Custom voice requires reference audio file (10-60s)" := rfl

/-- Claim C3 amended: when a custom (cloned) voice is requested with an
invalid or missing reference audio clip, the voice stage raises
`ValueError("Custom voice requires reference audio file (10-60s)")` and the
voiceover generation fails; there is no fallback to a preset voice. -/
theorem c3_custom_voice_fails_without_fallback (fsExists : List String)
    (hashVal : Nat) (norm : NormOutcome) (text : String)
    (settings : VoiceSettings) (hty : settings.voice_type = "custom")
    (href : match settings.reference_audio_path with
            | none => True
            | some p => p = "" ∨ p ∉ fsExists) :
    generateVoiceover fsExists hashVal norm ⟨text, settings⟩ =
      .error "Custom voice requires reference audio file (10-60s)" := by
  have hne : ¬ settings.voice_type = "preset" := by
    rw [hty]; decide
  simp only [generateVoiceover]
  rw [if_neg hne, generateCustomVoice_err fsExists text _ settings href]

/-- Witness for C3 amended at a concrete request. -/
theorem c3_custom_voice_fails_without_fallback_witness :
    generateVoiceover ["clip.wav"] 9 NormOutcome.raises
        ⟨"hi", ⟨"custom", "v", some "other.wav", 1, 1⟩⟩ =
      .error "Custom voice requires reference audio file (10-60s)" :=
  c3_custom_voice_fails_without_fallback ["clip.wav"] 9 NormOutcome.raises "hi"
    ⟨"custom", "v", some "other.wav", 1, 1⟩ rfl (Or.inr (by decide))

/-- Claim C6 (code-bug evidence): for the 45-second scenario the prompt
targets `int(45*150/60) = 112` words, but the voice stage's duration
formula `max(1, words/150*speed)` omits the minutes-to-seconds conversion:
at 112 words and speed 1 it produces 1 second of audio (22050 samples at
22050 Hz), and main.py reports `112/150 = 56/75` seconds — neither is
within ±10% of 45 seconds. -/
theorem c6_duration_formula_yields_one_second :
    pyInt (targetWords 45) = 112 ∧
    pyWordCount t112 = 112 ∧
    placeholderDuration 112 1 = 1 ∧
    (placeholderAudio t112 1).sampleRate = 22050 ∧
    (placeholderAudio t112 1).samples.length = 22050 ∧
    reportedDurationSeconds 112 1 = 56 / 75 ∧
    ¬ (45 - 45 / 10 ≤ placeholderDuration 112 1 ∧
        placeholderDuration 112 1 ≤ 45 + 45 / 10) := by
  have hw : pyWordCount t112 = 112 := by decide
  have hd : placeholderDuration 112 1 = 1 := placeholderDuration_eq_one 112 (by norm_num)
  refine ⟨?_, hw, hd, rfl, ?_, ?_, ?_⟩
  · exact pyInt_eq_ofNat _ 112 (by unfold targetWords; norm_num)
      (by unfold targetWords; norm_num)
  · show (List.replicate (pyInt ((22050 : Rat) *
        placeholderDuration (pyWordCount t112) 1)) (0 : Rat)).length = 22050
    rw [List.length_replicate, hw, hd, mul_one]
    exact pyInt_eq_ofNat _ 22050 (by norm_num) (by norm_num)
  · unfold reportedDurationSeconds; norm_num
  · rw [hd]
    intro h
    have h1 := h.1
    norm_num at h1

/-- Claim C7: every voiceover artifact the current implementation writes —
preset or custom — is silent placeholder audio: all samples are zero and
the sample rate is 22050 Hz, whatever the input text. -/
theorem c7_placeholder_silent_audio (fsExists : List String)
    (text outputPath : String) (settings : VoiceSettings) :
    ((generatePresetVoice text outputPath settings).2.sampleRate = 22050 ∧
      ∀ x ∈ (generatePresetVoice text outputPath settings).2.samples, x = 0) ∧
    (∀ r, generateCustomVoice fsExists text outputPath settings = .ok r →
      r.2.sampleRate = 22050 ∧ ∀ x ∈ r.2.samples, x = 0) := by
  constructor
  · exact ⟨rfl, fun x hx => List.eq_of_mem_replicate hx⟩
  · intro r hr
    unfold generateCustomVoice at hr
    cases h : settings.reference_audio_path with
    | none => rw [h] at hr; exact absurd hr (by simp)
    | some p =>
        rw [h] at hr
        replace hr : (if p = "" ∨ p ∉ fsExists then
            (Except.error "Custom voice requires reference audio file (10-60s)" :
              Except String (String × AudioFile))
          else .ok (outputPath, placeholderAudio text settings.speed)) = .ok r := hr
        by_cases hp : p = "" ∨ p ∉ fsExists
        · rw [if_pos hp] at hr
          exact absurd hr (by simp)
        · rw [if_neg hp] at hr
          have := (Except.ok.injEq _ _).mp hr
          subst this
          exact ⟨rfl, fun x hx => List.eq_of_mem_replicate hx⟩

/-- Witness for C7 at a concrete successful custom-voice request. -/
theorem c7_placeholder_silent_audio_witness :
    ("out.wav", placeholderAudio "hi" 1).2.sampleRate = 22050 ∧
    ∀ x ∈ ("out.wav", placeholderAudio "hi" 1).2.samples, x = 0 :=
  (c7_placeholder_silent_audio ["clip.wav"] "hi" "out.wav"
    ⟨"custom", "v", some "clip.wav", 1, 1⟩).2
    ("out.wav", placeholderAudio "hi" 1) rfl

/-! ### ollama_client.py — `generate_script` -/

/-- JSON values as returned by the json library. -/
inductive Json where
  | null : Json
  | bool : Bool → Json
  | num : Rat → Json
  | str : String → Json
  | arr : List Json → Json
  | obj : List (String × Json) → Json

/-- First index of a character (Python `s.find(c)`), worker. -/
def findCharIdx : List Char → Char → Nat → Option Nat
  | [], _, _ => none
  | x :: xs, c, i => if x == c then some i else findCharIdx xs c (i + 1)

/-- Python `s.find(c)`: index of first occurrence, `none` for -1. -/
def pyFindChar (s : String) (c : Char) : Option Nat :=
  findCharIdx s.toList c 0

/-- Python `s.rfind(c)`: index of last occurrence, `none` for -1. -/
def pyRFindChar (s : String) (c : Char) : Option Nat :=
  match findCharIdx s.toList.reverse c 0 with
  | none => none
  | some i => some (s.toList.length - 1 - i)

/-- The opening and closing curly-brace characters. -/
def lbrace : Char := Char.ofNat 123

def rbrace : Char := Char.ofNat 125

/-- The JSON-candidate substring extraction of `generate_script`:
`json_start = find("\x7b")`; when found, `json_end = rfind("\x7d") + 1`
(0 when absent) and the slice is taken only when `json_end > json_start`. -/
def extractJsonStr (t : String) : Option String :=
  match pyFindChar t lbrace with
  | none => none
  | some js =>
      let je : Nat :=
        match pyRFindChar t rbrace with
        | some k => k + 1
        | none => 0
      if js < je then some (String.mk ((t.toList.drop js).take (je - js)))
      else none

/-- The raw-text wrapper `generate_script` returns when `json.loads`
raises a decode error. -/
def fallbackScript (topic : String) (targetDurationSeconds : Nat)
    (responseText : String) : Json :=
  Json.obj
    [("title", Json.str ("Video about " ++ topic)),
     ("scenes", Json.arr
       [Json.obj
         [("duration", Json.num (targetDurationSeconds : Rat)),
          ("visual", Json.str "Generic visual"),
          ("voiceover", Json.str responseText)]]),
     ("hashtags", Json.arr [Json.str "#shorts", Json.str "#video", Json.str "#ai"])]

/-- The HTTP-200 branch of `generate_script`.  `parse` is the external
`json.loads` oracle (`none` models a raised `JSONDecodeError`).  When the
response text contains no brace-delimited span, control falls through the
try-block to `return None`. -/
def generateScript200 (parse : String → Option Json) (topic : String)
    (targetDurationSeconds : Nat) (responseText : String) : Option Json :=
  match extractJsonStr responseText with
  | none => none
  | some s =>
      match parse s with
      | some j => some j
      | none => some (fallbackScript topic targetDurationSeconds responseText)

/-- `generate_script` over the backend response: a non-200 status raises,
a 200 status yields the 200-branch result. -/
def generateScript (parse : String → Option Json) (topic : String)
    (targetDurationSeconds : Nat) (status : Nat) (responseText : String) :
    Except String (Option Json) :=
  if status = 200 then
    .ok (generateScript200 parse topic targetDurationSeconds responseText)
  else
    .error ("Ollama API returned status " ++ toString status)

/-- Top-level keys of a JSON object. -/
def jsonKeys : Json → List String
  | .obj fields => fields.map Prod.fst
  | _ => []

/-- Association-list lookup for JSON object fields. -/
def lookupField (key : String) : List (String × Json) → Option Json
  | [] => none
  | (k, v) :: rest => if k = key then some v else lookupField key rest

/-- Field access on a JSON object. -/
def jsonLookup (key : String) (j : Json) : Option Json :=
  match j with
  | .obj fields => lookupField key fields
  | _ => none

/-- Number of scenes of a script result, when it is an object whose
`scenes` field is an array. -/
def sceneCount (r : Option Json) : Option Nat :=
  match r with
  | none => none
  | some j =>
      match jsonLookup "scenes" j with
      | some (.arr xs) => some xs.length
      | _ => none

theorem generateScript200_none (parse : String → Option Json) (topic : String)
    (dur : Nat) (t : String) (he : extractJsonStr t = none) :
    generateScript200 parse topic dur t = none := by
  unfold generateScript200
  rw [he]

theorem generateScript200_some (parse : String → Option Json) (topic : String)
    (dur : Nat) (t s : String) (he : extractJsonStr t = some s) :
    generateScript200 parse topic dur t =
      match parse s with
      | some j => some j
      | none => some (fallbackScript topic dur t) := by
  unfold generateScript200
  rw [he]

/-! ### Claim theorems: script generation -/

/-- Claim C4 counterexample: an HTTP-200 backend response whose text
contains no brace-delimited span makes `generate_script` return `None` —
the claim that a successful backend response never yields `None` is false. -/
theorem c4_counterexample :
    generateScript (fun _ => none) "daily habits" 45 200 "plain text reply" =
      Except.ok none := rfl

/-- Claim C4 amended: on an HTTP-200 response, `generate_script` returns
either the JSON value parsed from the brace-delimited span of the response
text, or — when parsing raises a decode error — a wrapper object with
exactly the keys title, scenes, hashtags around the raw text; when the
response contains no brace-delimited span it returns `None` instead. -/
theorem c4_script_result_characterization (parse : String → Option Json)
    (topic : String) (dur : Nat) (t : String) :
    generateScript parse topic dur 200 t = .ok (generateScript200 parse topic dur t) ∧
    (generateScript200 parse topic dur t = none → extractJsonStr t = none) ∧
    (∀ j, generateScript200 parse topic dur t = some j →
      (∃ s, extractJsonStr t = some s ∧ parse s = some j) ∨
      (j = fallbackScript topic dur t ∧
        jsonKeys j = ["title", "scenes", "hashtags"])) := by
  refine ⟨rfl, ?_, ?_⟩
  · intro h
    cases he : extractJsonStr t with
    | none => rfl
    | some s =>
        exfalso
        rw [generateScript200_some parse topic dur t s he] at h
        cases hp : parse s with
        | none =>
            rw [hp] at h
            replace h : some (fallbackScript topic dur t) = none := h
            exact Option.noConfusion h
        | some j =>
            rw [hp] at h
            replace h : some j = none := h
            exact Option.noConfusion h
  · intro j hj
    cases he : extractJsonStr t with
    | none =>
        rw [generateScript200_none parse topic dur t he] at hj
        exact Option.noConfusion hj
    | some s =>
        rw [generateScript200_some parse topic dur t s he] at hj
        cases hp : parse s with
        | none =>
            rw [hp] at hj
            replace hj : some (fallbackScript topic dur t) = some j := hj
            have hj' := Option.some.inj hj
            right
            refine ⟨hj'.symm, ?_⟩
            rw [← hj']
            exact rfl
        | some j' =>
            rw [hp] at hj
            replace hj : some j' = some j := hj
            have hjj := Option.some.inj hj
            left
            exact ⟨s, rfl, by rw [hp, hjj]⟩

/-- Witness for C4 amended: at a 200 response with no braces, the
characterization yields that the extraction was empty. -/
theorem c4_script_result_characterization_witness :
    extractJsonStr "hello" = none :=
  (c4_script_result_characterization (fun _ => none) "daily habits" 45
    "hello").2.1 rfl

/-- Claim C5 counterexample: in the 45-second "daily habits" scenario, a
200 response whose brace-delimited span fails JSON parsing produces a
script artifact with exactly 1 scene — fewer than the claimed 3. -/
theorem c5_counterexample :
    sceneCount (generateScript200 (fun _ => none) "daily habits" 45
      "\x7bbad\x7d") = some 1 ∧ ¬ 3 ≤ 1 := ⟨rfl, by decide⟩

/-- Claim C5 amended: the script stage guarantees no lower bound of 3 on
scene count: whenever the model response's brace span fails JSON parsing,
the resulting script artifact has exactly one scene (and a parsed script
has whatever scene count the model emitted). -/
theorem c5_fallback_script_single_scene (parse : String → Option Json)
    (topic : String) (dur : Nat) (t s : String)
    (he : extractJsonStr t = some s) (hp : parse s = none) :
    sceneCount (generateScript200 parse topic dur t) = some 1 := by
  rw [generateScript200_some parse topic dur t s he, hp]
  exact rfl

/-- Witness for C5 amended at a concrete unparseable response. -/
theorem c5_fallback_script_single_scene_witness :
    sceneCount (generateScript200 (fun _ => none) "daily habits" 45
      "\x7bx\x7d") = some 1 :=
  c5_fallback_script_single_scene (fun _ => none) "daily habits" 45
    "\x7bx\x7d" (String.mk [lbrace, Char.ofNat 120, rbrace]) rfl rfl

/-! ### video_engine.py — `_build_ffmpeg_command`, `_check_nvenc`,
`export_video` -/

/-- A video clip entry as passed to `_build_ffmpeg_command` (a dict that
may omit `path`; `duration` defaults to 5.0 and is read but unused). -/
structure ClipInfo where
  path : Option String
  duration : Rat
deriving DecidableEq

/-- `clip.get("path", f"video_clip_\x7bi\x7d.mp4")`. -/
def clipPath (i : Nat) (c : ClipInfo) : String :=
  c.path.getD ("video_clip_" ++ toString i ++ ".mp4")

/-- The clip files that exist and therefore become `-i` inputs. -/
def existingVideoFiles (fsExists : List String) (videoClips : List ClipInfo) :
    List String :=
  ((videoClips.enum.map fun p => clipPath p.1 p.2).filter fun p => p ∈ fsExists)

/-- The single-quote character used inside the subtitles force_style. -/
def singleQuote : Char := Char.ofNat 39

/-- The per-clip scale/pad filter string. -/
def scaleFilter (resolution : String) (i : Nat) : String :=
  "[" ++ toString i ++ ":v]scale=" ++ resolution ++
    ":force_original_aspect_ratio=decrease,pad=" ++ resolution ++
    ":(ow-iw)/2:(oh-ih)/2,setsar=1[f" ++ toString i ++ "]"

/-- The concat filter string over `n` scaled inputs. -/
def concatFilter (n : Nat) : String :=
  String.join ((List.range n).map fun i => "[f" ++ toString i ++ "]") ++
    "concat=n=" ++ toString n ++ ":v=1:a=0[outv]"

/-- The black-placeholder source filter used when no clip exists. -/
def colorFilter (resolution : String) (fps : Nat) : String :=
  "color=c=black:s=" ++ resolution ++ ":d=10,fps=" ++ toString fps ++ "[outv]"

/-- The subtitles overlay filter string. -/
def subtitlesFilter (captionsPath : String) : String :=
  "[outv]subtitles=" ++ captionsPath ++ ":force_style=" ++
    String.singleton singleQuote ++
    "Fontsize=24,PrimaryColour=&H00FFFF,Outline=1,Shadow=1,MarginV=100" ++
    String.singleton singleQuote ++ "[outsub]"

/-- Python truthiness of the optional captions path. -/
def pyTruthyOpt (o : Option String) : Bool :=
  match o with
  | none => false
  | some s => !(s == "")

/-- Whether the subtitles filter is appended: `captions_path` truthy AND
the file exists. -/
def capFilterOn (fsExists : List String) (captionsPath : Option String) : Bool :=
  match captionsPath with
  | none => false
  | some p => !(p == "") && fsExists.contains p

/-- The `filter_complex` argument of `_build_ffmpeg_command`. -/
def filterComplexStr (fsExists : List String) (resolution : String) (fps : Nat)
    (videoClips : List ClipInfo) (captionsPath : Option String) : String :=
  let videoFiles := existingVideoFiles fsExists videoClips
  let base :=
    if videoFiles.length ≠ 0 then
      ((List.range videoFiles.length).map (scaleFilter resolution)) ++
        [concatFilter videoFiles.length]
    else
      [colorFilter resolution fps]
  let parts :=
    base ++
      (match captionsPath with
       | some p => if capFilterOn fsExists captionsPath then [subtitlesFilter p] else []
       | none => [])
  String.intercalate ";" parts

/-- `_check_nvenc`: `true` iff the `ffmpeg -codecs` probe output contains
`h264_nvenc`; `false` when the probe raises (`probe = none`). -/
def checkNvenc (probe : Option String) : Bool :=
  match probe with
  | none => false
  | some out => pyIn "h264_nvenc" out

/-- `_build_ffmpeg_command`: the full argument vector.  `nvenc` is the
result of the `_check_nvenc` probe; `codec` is received but, as in the
source, never used in the command. -/
def buildFfmpegCommand (nvenc : Bool) (fsExists : List String)
    (resolution : String) (fps : Nat) (codec bitrate : String)
    (videoClips : List ClipInfo) (audioPath : String)
    (captionsPath : Option String) : List String :=
  let videoFiles := existingVideoFiles fsExists videoClips
  let inputs := (videoFiles.flatMap fun p => ["-i", p]) ++ ["-i", audioPath]
  let audioInputIdx := videoFiles.length
  ["ffmpeg", "-y"] ++ inputs ++
    ["-filter_complex", filterComplexStr fsExists resolution fps videoClips captionsPath,
     "-map", if pyTruthyOpt captionsPath then "[outsub]" else "[outv]",
     "-map", toString audioInputIdx ++ ":a",
     "-c:v", if nvenc then "h264_nvenc" else "h264",
     "-b:v", bitrate,
     "-maxrate", bitrate,
     "-bufsize", "2M",
     "-c:a", "aac",
     "-b:a", "192k",
     "-vf", "fps=" ++ toString fps,
     "-shortest",
     "-profile:v", "main",
     "-level", "4.2",
     "-movflags", "+faststart",
     "output.mp4"]

/-- ProjectSettings as consumed by `export_video` (main.py's model plus the
`codec` attribute the engine reads). -/
structure ProjectSettings where
  platform : String
  resolution : String
  fps : Nat
  codec : String
  bit_rate : String
deriving DecidableEq

/-- The platform preset table of `export_video`. -/
def platformPresets (platform : String) :
    Option (String × Nat × String × String) :=
  if platform = "youtube-shorts" ∨ platform = "tiktok" ∨
      platform = "instagram-reels" then
    some ("1080x1920", 30, "h.264", "8M")
  else
    none

/-- `settings.resolution or preset.get(...)` (empty string is falsy). -/
def effResolution (s : ProjectSettings) : String :=
  if s.resolution = "" then
    ((platformPresets s.platform).map fun p => p.1).getD "1080x1920"
  else s.resolution

/-- `settings.fps or preset.get(...)` (0 is falsy). -/
def effFps (s : ProjectSettings) : Nat :=
  if s.fps = 0 then
    ((platformPresets s.platform).map fun p => p.2.1).getD 30
  else s.fps

/-- `settings.codec or preset.get(...)`. -/
def effCodec (s : ProjectSettings) : String :=
  if s.codec = "" then
    ((platformPresets s.platform).map fun p => p.2.2.1).getD "h.264"
  else s.codec

/-- `settings.bit_rate or preset.get(...)`. -/
def effBitrate (s : ProjectSettings) : String :=
  if s.bit_rate = "" then
    ((platformPresets s.platform).map fun p => p.2.2.2).getD "8M"
  else s.bit_rate

/-- The timestamped output path `export_video` constructs and returns:
`os.path.join("output", f"short_\x7btimestamp\x7d.mp4")`. -/
def exportOutputPath (timestamp : String) : String :=
  "output/short_" ++ timestamp ++ ".mp4"

/-- The ffmpeg command `export_video` executes. -/
def exportCmd (nvenc : Bool) (fsExists : List String)
    (settings : ProjectSettings) (videoClips : List ClipInfo)
    (audioPath : String) (captionsPath : Option String) : List String :=
  buildFfmpegCommand nvenc fsExists (effResolution settings) (effFps settings)
    (effCodec settings) (effBitrate settings) videoClips audioPath captionsPath

/-- `export_video`: returns the timestamped output path when the ffmpeg
subprocess exits 0, raises otherwise. -/
def exportVideo (nvenc : Bool) (fsExists : List String) (timestamp : String)
    (settings : ProjectSettings) (videoClips : List ClipInfo)
    (audioPath : String) (captionsPath : Option String)
    (ffmpegReturncode : Int) : Except String String :=
  if ffmpegReturncode = 0 then .ok (exportOutputPath timestamp)
  else .error "FFmpeg failed"

/-! ### Claim theorems: video engine -/

/-- Claim C8: for every export, the command built by
`_build_ffmpeg_command` selects `h264_nvenc` as the video codec exactly
when the NVENC probe reports it available, and the software `h264` codec
otherwise; `_check_nvenc` reports availability exactly when `h264_nvenc`
occurs in the probe output, and reports false when the probe raises. -/
theorem c8_codec_selection_matches_probe (probe : Option String)
    (fsExists : List String) (resolution : String) (fps : Nat)
    (codec bitrate : String) (videoClips : List ClipInfo)
    (audioPath : String) (captionsPath : Option String) :
    (∃ pre,
      buildFfmpegCommand (checkNvenc probe) fsExists resolution fps codec
          bitrate videoClips audioPath captionsPath =
        pre ++
          ["-c:v", if checkNvenc probe then "h264_nvenc" else "h264",
           "-b:v", bitrate, "-maxrate", bitrate, "-bufsize", "2M",
           "-c:a", "aac", "-b:a", "192k", "-vf", "fps=" ++ toString fps,
           "-shortest", "-profile:v", "main", "-level", "4.2",
           "-movflags", "+faststart", "output.mp4"]) ∧
    (∀ out, checkNvenc (some out) = pyIn "h264_nvenc" out) ∧
    checkNvenc none = false := by
  refine ⟨?_, fun out => rfl, rfl⟩
  refine ⟨["ffmpeg", "-y"] ++
    ((existingVideoFiles fsExists videoClips).flatMap fun p => ["-i", p]) ++
    ["-i", audioPath,
     "-filter_complex", filterComplexStr fsExists resolution fps videoClips captionsPath,
     "-map", if pyTruthyOpt captionsPath then "[outsub]" else "[outv]",
     "-map", toString (existingVideoFiles fsExists videoClips).length ++ ":a"], ?_⟩
  simp [buildFfmpegCommand]

/-- Witness for C8 at a concrete probe outcome. -/
theorem c8_codec_selection_matches_probe_witness :
    checkNvenc none = false :=
  (c8_codec_selection_matches_probe none [] "1080x1920" 30 "h.264" "8M" []
    "audio.wav" none).2.2

/-- Claim C10 (code-bug evidence): at a concrete export, the command
`export_video` executes writes its output to the hardcoded final argument
`output.mp4`, while `export_video` returns the timestamped path under the
output directory — the returned path is not the file the ffmpeg command
writes, contradicting the claim that they coincide. -/
theorem c10_returned_path_differs_from_command_output :
    (exportCmd false [] ⟨"youtube-shorts", "1080x1920", 30, "h.264", "8M"⟩
        [] "assets/audio/test.wav" none).getLast? = some "output.mp4" ∧
    exportVideo false [] "20250101_120000"
        ⟨"youtube-shorts", "1080x1920", 30, "h.264", "8M"⟩
        [] "assets/audio/test.wav" none 0 =
      .ok "output/short_20250101_120000.mp4" ∧
    exportOutputPath "20250101_120000" ≠ "output.mp4" := by
  refine ⟨rfl, rfl, ?_⟩
  decide

/-! ### ResourceBudget — modelled from the spec -/

/-- Modelled from the spec: the ResourceBudget component is absent from
src/ (the source only keeps ad hoc VRAM counters in main.py's AppState);
this model follows section 4.1 of the specification.  A lease records its
holder stage and the accelerator memory reserved. -/
structure Lease where
  id : Nat
  holder : String
  mem : Nat
deriving DecidableEq

/-- Modelled from the spec: process-wide BudgetState — total accelerator
memory fixed at startup, currently active leases, and a FIFO queue of
waiting requests. -/
structure BudgetState where
  total : Nat
  active : List Lease
  waiters : List (String × Nat)
  nextId : Nat
deriving DecidableEq

namespace ResourceBudget

/-- Memory currently leased: the sum of the active leases' reservations. -/
def leasedMem (s : BudgetState) : Nat :=
  (s.active.map Lease.mem).sum

/-- Modelled from the spec: `available() -> memory`, the headroom under the
total-capacity ceiling. -/
def available (s : BudgetState) : Int :=
  (s.total : Int) - (leasedMem s : Int)

/-- Grant a lease immediately (request fits within current headroom). -/
def grantLease (stage : String) (est : Nat) (s : BudgetState) : BudgetState :=
  { s with active := ⟨s.nextId, stage, est⟩ :: s.active, nextId := s.nextId + 1 }

/-- FIFO drain of the waiter queue after a release: grant waiters in order
while they fit; stop (preserving order) at the first that does not. -/
def drainGo : List (String × Nat) → BudgetState → BudgetState
  | [], s => s
  | (stage, est) :: rest, s =>
      if (est : Int) ≤ available s then drainGo rest (grantLease stage est s)
      else { s with waiters := s.waiters ++ (stage, est) :: rest }

/-- Modelled from the spec: `acquire(stage_name, estimated_memory)`.  A
request above the total ceiling fails immediately with ResourceUnavailable
(state unchanged); a fitting request is granted; a request that fits the
ceiling but not the current headroom is queued FIFO. -/
def acquire (stage : String) (est : Nat) (s : BudgetState) : BudgetState :=
  if s.total < est then s
  else if (est : Int) ≤ available s then grantLease stage est s
  else { s with waiters := s.waiters ++ [(stage, est)] }

/-- Modelled from the spec: `release(lease)` — idempotent (releasing an
absent lease is a no-op), then grants queued waiters FIFO. -/
def release (leaseId : Nat) (s : BudgetState) : BudgetState :=
  if (s.active.filter fun l => l.id == leaseId).isEmpty then s
  else
    let s1 : BudgetState := { s with active := s.active.filter fun l => !(l.id == leaseId) }
    drainGo s1.waiters { s1 with waiters := [] }

/-- An acquire or release operation. -/
inductive BudgetOp where
  | acq (stage : String) (est : Nat)
  | rel (leaseId : Nat)
deriving DecidableEq

/-- One step of the budget state machine. -/
def budgetStep (s : BudgetState) (op : BudgetOp) : BudgetState :=
  match op with
  | .acq stage est => acquire stage est s
  | .rel i => release i s

/-- Run a sequence of operations from the startup state with the probed
total capacity. -/
def runBudget (total : Nat) (ops : List BudgetOp) : BudgetState :=
  ops.foldl budgetStep ⟨total, [], [], 0⟩

/-- The budget invariant: the probed total is never mutated and the leased
memory never exceeds it. -/
def BudgetInv (total : Nat) (s : BudgetState) : Prop :=
  s.total = total ∧ leasedMem s ≤ s.total

theorem leasedMem_grant (stage : String) (est : Nat) (s : BudgetState) :
    leasedMem (grantLease stage est s) = est + leasedMem s := rfl

theorem leasedMem_filter_le (s : BudgetState) (p : Lease → Bool) :
    ((s.active.filter p).map Lease.mem).sum ≤ leasedMem s := by
  unfold leasedMem
  induction s.active with
  | nil => simp
  | cons a t ih =>
      by_cases h : p a = true <;> simp [List.filter_cons, h] <;> omega

theorem drainGo_inv (total : Nat) :
    ∀ (w : List (String × Nat)) (s : BudgetState), BudgetInv total s →
      BudgetInv total (drainGo w s) := by
  intro w
  induction w with
  | nil => intro s hs; exact hs
  | cons hd rest ih =>
      intro s hs
      obtain ⟨hst, hle⟩ := hs
      unfold drainGo
      by_cases h : ((hd.2 : Int) ≤ available s)
      · rw [if_pos h]
        apply ih
        constructor
        · exact hst
        · rw [leasedMem_grant]
          unfold available at h
          have htot : (grantLease hd.1 hd.2 s).total = s.total := rfl
          omega
      · rw [if_neg h]
        exact ⟨hst, hle⟩

theorem acquire_inv (total : Nat) (stage : String) (est : Nat)
    (s : BudgetState) (hs : BudgetInv total s) :
    BudgetInv total (acquire stage est s) := by
  obtain ⟨hst, hle⟩ := hs
  unfold acquire
  by_cases h1 : s.total < est
  · rw [if_pos h1]; exact ⟨hst, hle⟩
  · rw [if_neg h1]
    by_cases h2 : ((est : Int) ≤ available s)
    · rw [if_pos h2]
      constructor
      · exact hst
      · rw [leasedMem_grant]
        unfold available at h2
        have htot : (grantLease stage est s).total = s.total := rfl
        omega
    · rw [if_neg h2]
      exact ⟨hst, hle⟩

theorem release_inv (total : Nat) (leaseId : Nat) (s : BudgetState)
    (hs : BudgetInv total s) : BudgetInv total (release leaseId s) := by
  obtain ⟨hst, hle⟩ := hs
  unfold release
  by_cases h : (s.active.filter fun l => l.id == leaseId).isEmpty
  · rw [if_pos h]; exact ⟨hst, hle⟩
  · rw [if_neg h]
    apply drainGo_inv
    constructor
    · exact hst
    · have := leasedMem_filter_le s (fun l => !(l.id == leaseId))
      unfold leasedMem at *
      simp only at *
      omega

theorem budgetStep_inv (total : Nat) (s : BudgetState) (op : BudgetOp)
    (hs : BudgetInv total s) : BudgetInv total (budgetStep s op) := by
  cases op with
  | acq stage est => exact acquire_inv total stage est s hs
  | rel i => exact release_inv total i s hs

theorem foldl_inv (total : Nat) :
    ∀ (ops : List BudgetOp) (s : BudgetState), BudgetInv total s →
      BudgetInv total (ops.foldl budgetStep s) := by
  intro ops
  induction ops with
  | nil => intro s hs; exact hs
  | cons op rest ih =>
      intro s hs
      exact ih (budgetStep s op) (budgetStep_inv total s op hs)

end ResourceBudget

/-! ### Claim theorem: ResourceBudget -/

/-- Claim C9 (modelled from the spec): for every sequence of acquire and
release operations on the ResourceBudget, starting from the startup state
with the probed total capacity, `available()` is never negative and never
exceeds the total capacity. -/
theorem c9_available_within_bounds (total : Nat) (ops : List ResourceBudget.BudgetOp) :
    0 ≤ ResourceBudget.available (ResourceBudget.runBudget total ops) ∧
    ResourceBudget.available (ResourceBudget.runBudget total ops) ≤ (total : Int) := by
  have hinv : ResourceBudget.BudgetInv total (ResourceBudget.runBudget total ops) := by
    apply ResourceBudget.foldl_inv
    exact ⟨rfl, by simp [ResourceBudget.leasedMem]⟩
  obtain ⟨hst, hle⟩ := hinv
  unfold ResourceBudget.available
  constructor
  · omega
  · have h0 : 0 ≤ ResourceBudget.leasedMem (ResourceBudget.runBudget total ops) :=
      Nat.zero_le _
    omega

/-- Witness for C9 at a concrete operation sequence. -/
theorem c9_available_within_bounds_witness :
    0 ≤ ResourceBudget.available (ResourceBudget.runBudget 12
      [ResourceBudget.BudgetOp.acq "tts" 4, ResourceBudget.BudgetOp.rel 0]) ∧
    ResourceBudget.available (ResourceBudget.runBudget 12
      [ResourceBudget.BudgetOp.acq "tts" 4, ResourceBudget.BudgetOp.rel 0]) ≤ (12 : Int) :=
  c9_available_within_bounds 12
    [ResourceBudget.BudgetOp.acq "tts" 4, ResourceBudget.BudgetOp.rel 0]
